import Mathlib

/-!
Shallow embedding of the blueprint-scan-orchestrator scripts
(src/scripts/trigger_scans.py, src/scripts/collect_reports.py,
src/scripts/aggregate_reports.py) together with theorems about the
claims of the specification.

Remote calls (workflow dispatch, run lookup, status query, artifact
listing, artifact download) are modelled by explicit oracles passed as
function arguments; an exception raised by the remote layer
(GithubException in the source) is modelled as an explicit error value.
The wall clock is an explicit time source, following the design note of
the specification that polling is driven by an injectable clock.
-/

namespace BlueprintScan

/-! ### Dispatcher (src/scripts/trigger_scans.py) -/

/-- One entry of the repository target list, as produced by
`get_repos_to_scan` (fields `exclude_dirs` and `enabled` do not reach
`trigger_workflow` and are omitted). -/
structure RepoConfig where
  name : String
  workflow_file : String
  branch : String
deriving DecidableEq

/-- Outcome of one remote `workflow.create_dispatch` attempt: the call
returns a boolean, or the remote layer raises (GithubException). -/
inductive DispatchOutcome where
  | ok (success : Bool)
  | raised (msg : String)
deriving DecidableEq

/-- The per-repository result dict built by `trigger_workflow`
(trigger_scans.py lines 113-156). `triggered_at` is the creation
timestamp. -/
structure RunRecord where
  repo : String
  workflow_file : String
  branch : String
  status : String
  run_id : Option Nat
  error : Option String
  triggered_at : Nat
deriving DecidableEq

/-- `trigger_workflow` (trigger_scans.py lines 113-156): dry run yields
status `dry_run` with no remote call; otherwise the dispatch outcome
maps to `triggered`, `failed` (boolean False return) or `error`
(exception, message captured). -/
def trigger_workflow (repo_name workflow_file branch : String) (dry_run : Bool)
    (now : Nat) (outcome : DispatchOutcome) : RunRecord :=
  let base : RunRecord :=
    { repo := repo_name, workflow_file := workflow_file, branch := branch,
      status := "unknown", run_id := none, error := none, triggered_at := now }
  if dry_run then
    { base with status := "dry_run" }
  else
    match outcome with
    | .ok true => { base with status := "triggered" }
    | .ok false =>
        { base with status := "failed", error := some "create_dispatch returned False" }
    | .raised m => { base with status := "error", error := some m }

/-- The dispatch loop of `main` (trigger_scans.py lines 207-216): one
`trigger_workflow` call per configured repository, results appended in
input order. The oracle gives the dispatch outcome of the repository at
each position. -/
def triggerBatch (dry_run : Bool) (now : Nat) (oracle : Nat → DispatchOutcome) :
    Nat → List RepoConfig → List RunRecord
  | _, [] => []
  | i, rc :: rest =>
      trigger_workflow rc.name rc.workflow_file rc.branch dry_run now (oracle i)
        :: triggerBatch dry_run now oracle (i + 1) rest

/-- The run-id resolution pass of `main` (trigger_scans.py lines
219-236): only records with status `triggered` get a lookup; a falsy
lookup result (None, or run id 0) leaves the record unresolved. The
oracle gives the `get_latest_run_id` result per position. -/
def resolveRunIds (lookupRun : Nat → Option Nat) :
    Nat → List RunRecord → List RunRecord
  | _, [] => []
  | i, r :: rest =>
      let r' :=
        if r.status = "triggered" then
          match lookupRun i with
          | some rid => if rid ≠ 0 then { r with run_id := some rid } else r
          | none => r
        else r
      r' :: resolveRunIds lookupRun (i + 1) rest

/-- The trigger output object (trigger_scans.py lines 239-246). -/
structure TriggerOutput where
  total_repos : Nat
  triggered : Nat
  failed : Nat
  dry_run : Bool
  runs : List RunRecord
deriving DecidableEq

/-- `main` of trigger_scans.py after configuration loading: with an
empty target list the script exits before writing any output (`none`);
otherwise it dispatches every repository, resolves run ids (skipped in
dry-run mode) and builds the output object. -/
def triggerMain (dry_run : Bool) (now : Nat) (oracle : Nat → DispatchOutcome)
    (lookupRun : Nat → Option Nat) (repos : List RepoConfig) : Option TriggerOutput :=
  if repos.isEmpty then none
  else
    let results := triggerBatch dry_run now oracle 0 repos
    let results := if dry_run then results else resolveRunIds lookupRun 0 results
    some
      { total_repos := repos.length,
        triggered := results.countP (fun r => r.status == "triggered"),
        failed := results.countP (fun r => r.status == "failed" || r.status == "error"),
        dry_run := dry_run,
        runs := results }

/-! ### PollLoop (src/scripts/collect_reports.py, wait_for_completion) -/

/-- One entry of the `runs` list consumed by collect_reports.py: the
RunRecord fields the poll loop and the collector read and mutate.
`completed` models `run.get("completed")` with absence as `false`. -/
structure Run where
  repo : String
  run_id : Option Nat
  completed : Bool
  run_status : Option String
  run_conclusion : Option String
deriving DecidableEq

/-- Python truthiness of `run.get("run_id")`: absent or zero is falsy. -/
def hasRunId (r : Run) : Bool :=
  match r.run_id with
  | some n => n != 0
  | none => false

/-- One remote `get_workflow_run` status query: a status/conclusion
pair, or a raised GithubException. -/
inductive QueryResult where
  | ok (status : String) (conclusion : Option String)
  | raised (msg : String)
deriving DecidableEq

/-- The dict returned by `check_run_status` (collect_reports.py lines
83-99). -/
structure StatusInfo where
  status : String
  conclusion : Option String
  completed : Bool
  error : Option String
deriving DecidableEq

/-- `check_run_status`: a successful query reports the run status and
whether it equals "completed"; a raised exception is converted to
status "error", conclusion None, completed False. -/
def check_run_status : QueryResult → StatusInfo
  | .ok s c => { status := s, conclusion := c, completed := s == "completed", error := none }
  | .raised m => { status := "error", conclusion := none, completed := false, error := some m }

/-- The per-record body of the poll round (collect_reports.py lines
136-145): store the queried status and conclusion on the record, and set
the completed flag when the query reports completion. -/
def stepRun (q : QueryResult) (r : Run) : Run :=
  let st := check_run_status q
  let r1 := { r with run_status := some st.status, run_conclusion := st.conclusion }
  if st.completed then { r1 with completed := true } else r1

/-- A record is queried in a round exactly when it has a truthy run id
and is not yet completed; otherwise it is left untouched. -/
def roundUpdate (q : QueryResult) (r : Run) : Run :=
  if hasRunId r && !r.completed then stepRun q r else r

/-- Result of one pass over the records (one iteration of the while
loop body): the updated records, the `all_completed` flag, and the
number of status queries issued. -/
structure RoundResult where
  runs : List Run
  allCompleted : Bool
  checks : Nat
deriving DecidableEq

/-- One poll round over the records starting at position `i`; the oracle
gives the query result per position. Records without a truthy run id
are not part of `pending_runs` and do not affect `all_completed`. -/
def pollRoundAux (o : Nat → QueryResult) : Nat → List Run → RoundResult
  | _, [] => { runs := [], allCompleted := true, checks := 0 }
  | i, r :: rest =>
      let res := pollRoundAux o (i + 1) rest
      if hasRunId r then
        if r.completed then
          { runs := r :: res.runs, allCompleted := res.allCompleted, checks := res.checks }
        else
          { runs := stepRun (o i) r :: res.runs,
            allCompleted := (check_run_status (o i)).completed && res.allCompleted,
            checks := res.checks + 1 }
      else
        { runs := r :: res.runs, allCompleted := res.allCompleted, checks := res.checks }

/-- One full poll round (the body of the while loop of
`wait_for_completion`, collect_reports.py lines 128-145). -/
def pollRound (o : Nat → QueryResult) (runs : List Run) : RoundResult :=
  pollRoundAux o 0 runs

/-- Observable outcome of the poll loop: final records, total status
queries issued, and number of sleeps performed. -/
structure PollOutcome where
  runs : List Run
  checks : Nat
  sleeps : Nat
deriving DecidableEq

/-- The while loop of `wait_for_completion` (collect_reports.py lines
121-153). `elapsed k` is the wall-clock time elapsed at the top of
iteration `k` (injectable time source); `fuel` bounds the number of
iterations, modelling the unbounded while loop. The loop breaks at the
top once elapsed time exceeds the deadline, breaks after a round in
which every pending record is completed, and otherwise sleeps one poll
interval before the next iteration. -/
def wait_loop (oracle : Nat → Nat → QueryResult) (elapsed : Nat → ℚ) (timeoutSec : ℚ) :
    Nat → Nat → List Run → PollOutcome
  | 0, _, runs => { runs := runs, checks := 0, sleeps := 0 }
  | fuel + 1, k, runs =>
      if elapsed k > timeoutSec then { runs := runs, checks := 0, sleeps := 0 }
      else
        let round := pollRound (oracle k) runs
        if round.allCompleted then
          { runs := round.runs, checks := round.checks, sleeps := 0 }
        else
          let rest := wait_loop oracle elapsed timeoutSec fuel (k + 1) round.runs
          { runs := rest.runs, checks := round.checks + rest.checks,
            sleeps := rest.sleeps + 1 }

/-- `wait_for_completion` (collect_reports.py lines 102-155): with no
record having a truthy run id the function returns at once; otherwise it
runs the poll loop with deadline `timeout_minutes * 60` seconds. -/
def wait_for_completion (oracle : Nat → Nat → QueryResult) (elapsed : Nat → ℚ)
    (timeout_minutes : ℚ) (fuel : Nat) (runs : List Run) : PollOutcome :=
  if (runs.filter hasRunId).isEmpty then { runs := runs, checks := 0, sleeps := 0 }
  else wait_loop oracle elapsed (timeout_minutes * 60) fuel 0 runs

/-! ### ArtifactCollector (src/scripts/collect_reports.py, collect_reports) -/

/-- Contiguous sublist test on character lists, used to model the Python
substring operator `in` on strings. -/
def containsSeq (pat : List Char) : List Char → Bool
  | [] => pat.isEmpty
  | c :: rest => pat.isPrefixOf (c :: rest) || containsSeq pat rest

/-- Python `pat in s` for strings. -/
def strContains (s pat : String) : Bool :=
  containsSeq pat.data s.data

/-- `repo_name.replace("/", "-")` (collect_reports.py line 228): the
directory name of a repository under the output directory. -/
def dirName (repo : String) : String :=
  ⟨repo.data.map (fun c => if c = '/' then '-' else c)⟩

/-- The reverse character replacement, mapping a directory name back to
a candidate repository identifier. -/
def undoDirName (s : String) : String :=
  ⟨s.data.map (fun c => if c = '-' then '/' else c)⟩

/-- A listed workflow-run artifact: its name and its numeric id. -/
structure Artifact where
  name : String
  id : Nat
deriving DecidableEq

/-- Outcome of listing the artifacts of a run (`get_repo`,
`get_workflow_run`, `get_artifacts`): the artifact list, or a raised
GithubException. -/
inductive ArtifactsListing where
  | ok (arts : List Artifact)
  | raised (msg : String)
deriving DecidableEq

/-- The per-repository result dict appended by `collect_reports`
(collect_reports.py lines 198-272); keys absent from a given dict are
`none`. -/
structure CollectionResult where
  repo : String
  status : String
  reason : Option String := none
  output_dir : Option String := none
  error : Option String := none
deriving DecidableEq

/-- The specification names skip outcomes by a combined label
(`skipped_no_run_id`, `skipped_not_completed`); in the source they are
the pair of the `status` and `reason` fields. -/
def resultLabel (c : CollectionResult) : String :=
  match c.reason with
  | some rsn => c.status ++ "_" ++ rsn
  | none => c.status

/-- The canonical report-artifact token (collect_reports.py line 235). -/
def canonicalTok : String := "nim-scan-report"

/-- The fixed fallback artifact-name tokens (collect_reports.py
line 249). -/
def fallbackToks : List String := ["docker-image-report", "hosted-nim-report"]

/-- Tier (a) match: the artifact name contains the canonical token. -/
def matchesCanonical (a : Artifact) : Bool :=
  strContains a.name canonicalTok

/-- Tier (b) match: the artifact name contains one of the fallback
tokens. -/
def matchesFallback (a : Artifact) : Bool :=
  fallbackToks.any (fun t => strContains a.name t)

/-- The body of the `collect_reports` loop for one run
(collect_reports.py lines 198-272). `listing` is the remote artifact
listing; `dl` gives the success of downloading an artifact by its id
(`download_artifact` returns a boolean and never raises, collect
lines 158-184). The second component counts remote calls made: one for
the artifact listing and one per attempted download. Tier (a) downloads
every canonical match and succeeds if any download succeeded; the
fallback loop runs only when `found_report` is still false, downloads
every fallback match, and sets `found_report` on the name match alone,
ignoring the download result. -/
def collect_report (run : Run) (listing : ArtifactsListing) (dl : Nat → Bool)
    (output_dir : String) : CollectionResult × Nat :=
  if hasRunId run = false then
    ({ repo := run.repo, status := "skipped", reason := some "no_run_id" }, 0)
  else if run.completed = false then
    ({ repo := run.repo, status := "skipped", reason := some "not_completed" }, 0)
  else
    match listing with
    | .raised m => ({ repo := run.repo, status := "error", error := some m }, 1)
    | .ok arts =>
        let repo_dir := output_dir ++ "/" ++ dirName run.repo
        let tierA := arts.filter matchesCanonical
        let found_a := tierA.any (fun a => dl a.id)
        if found_a then
          ({ repo := run.repo, status := "collected", output_dir := some repo_dir },
            1 + tierA.length)
        else
          let tierB := arts.filter matchesFallback
          if tierB.isEmpty then
            ({ repo := run.repo, status := "no_artifacts" },
              1 + tierA.length + tierB.length)
          else
            ({ repo := run.repo, status := "partial", output_dir := some repo_dir },
              1 + tierA.length + tierB.length)

/-! ### ReportAggregator (src/scripts/aggregate_reports.py) -/

/-- The `summary` object of a scan report; every field is optional in
the loaded document. -/
structure ReportSummary where
  supports_local_nim : Option Bool := none
  supports_hosted_nim : Option Bool := none
  uses_local_nim_in_actions : Option Bool := none
  uses_hosted_nim_in_actions : Option Bool := none
deriving DecidableEq

/-- A loaded scan report: the fields the aggregator reads, plus the
discovery-provenance bookkeeping keys `_source_dir` and `_source_file`
added by `load_repo_reports`. -/
structure ScanReport where
  classification : Option String := none
  classification_description : Option String := none
  summary : Option ReportSummary := none
  source_dir : Option String := none
  source_file : Option String := none
deriving DecidableEq

/-- `report.get("summary", {}).get("supports_local_nim", False)`. -/
def supportsLocal (r : ScanReport) : Bool :=
  ((r.summary.getD {}).supports_local_nim).getD false

/-- `report.get("summary", {}).get("supports_hosted_nim", False)`. -/
def supportsHosted (r : ScanReport) : Bool :=
  ((r.summary.getD {}).supports_hosted_nim).getD false

/-- `report.get("summary", {}).get("uses_local_nim_in_actions", False)`. -/
def usesLocal (r : ScanReport) : Bool :=
  ((r.summary.getD {}).uses_local_nim_in_actions).getD false

/-- `report.get("summary", {}).get("uses_hosted_nim_in_actions", False)`. -/
def usesHosted (r : ScanReport) : Bool :=
  ((r.summary.getD {}).uses_hosted_nim_in_actions).getD false

/-- `report.get("classification", "UNKNOWN")`. -/
def classificationLabel (r : ScanReport) : String :=
  r.classification.getD "UNKNOWN"

/-- `Counter[key] += 1` on an insertion-ordered counter table. -/
def bump : List (String × Nat) → String → List (String × Nat)
  | [], k => [(k, 1)]
  | (k', v) :: rest, k =>
      if k' = k then (k', v + 1) :: rest else (k', v) :: bump rest k

/-- The count stored for a key in a counter table (0 when absent). -/
def lookupCount : List (String × Nat) → String → Nat
  | [], _ => 0
  | (a, v) :: rest, k => if a = k then v else lookupCount rest k

/-- The sum of the four support-type bucket counts of a table. -/
def sumSupport (t : List (String × Nat)) : Nat :=
  lookupCount t "both" + lookupCount t "local_only" +
    lookupCount t "hosted_only" + lookupCount t "none"

/-- The sum of the four actions-usage bucket counts of a table. -/
def sumUsage (t : List (String × Nat)) : Nat :=
  lookupCount t "both_in_actions" + lookupCount t "local_in_actions" +
    lookupCount t "hosted_in_actions" + lookupCount t "none_in_actions"

/-- The three counter tables built by `aggregate_statistics`
(aggregate_reports.py lines 90-132). -/
structure Statistics where
  by_classification : List (String × Nat)
  by_support_type : List (String × Nat)
  by_actions_usage : List (String × Nat)
deriving DecidableEq

/-- The support-type bucket of one report (aggregate_reports.py lines
101-113). -/
def supportBucket (r : ScanReport) : String :=
  if supportsLocal r && supportsHosted r then "both"
  else if supportsLocal r then "local_only"
  else if supportsHosted r then "hosted_only"
  else "none"

/-- The actions-usage bucket of one report (aggregate_reports.py lines
115-126). -/
def usageBucket (r : ScanReport) : String :=
  if usesLocal r && usesHosted r then "both_in_actions"
  else if usesLocal r then "local_in_actions"
  else if usesHosted r then "hosted_in_actions"
  else "none_in_actions"

/-- The body of the `aggregate_statistics` loop for one report. -/
def aggStep (s : Statistics) (r : ScanReport) : Statistics :=
  { by_classification := bump s.by_classification (classificationLabel r),
    by_support_type := bump s.by_support_type (supportBucket r),
    by_actions_usage := bump s.by_actions_usage (usageBucket r) }

/-- `aggregate_statistics` (aggregate_reports.py lines 90-132). -/
def aggregate_statistics (reports : List ScanReport) : Statistics :=
  reports.foldl aggStep { by_classification := [], by_support_type := [], by_actions_usage := [] }

/-- Stripping the internal underscore-prefixed discovery fields before a
report is embedded in the aggregate (aggregate_reports.py lines
243-246). -/
def cleanReport (r : ScanReport) : ScanReport :=
  { r with source_dir := none, source_file := none }

/-- The `metadata` object of the aggregate output. In the empty-input
branch of `main` no `successful_scans` key is written, hence the field
is optional. -/
structure AggregateMetadata where
  total_repos : Nat
  successful_scans : Option Nat
deriving DecidableEq

/-- The aggregate output object. `summary` is the JSON object mapping
table names to counter tables; in the empty-input branch it is the
empty object. -/
structure Aggregate where
  metadata : AggregateMetadata
  summary : List (String × List (String × Nat))
  repositories : List ScanReport
deriving DecidableEq

/-- `main` of aggregate_reports.py after report loading (lines 221-257):
with no loaded reports it writes the hand-built empty report (summary
`{}`, no `successful_scans` key); otherwise it aggregates statistics,
strips internal fields, and records `total_repos` and
`successful_scans` both as the number of loaded reports. -/
def aggregateMain (reports : List ScanReport) : Aggregate :=
  if reports.isEmpty then
    { metadata := { total_repos := 0, successful_scans := none },
      summary := [], repositories := [] }
  else
    let statistics := aggregate_statistics reports
    { metadata :=
        { total_repos := reports.length, successful_scans := some reports.length },
      summary :=
        [("by_classification", statistics.by_classification),
         ("by_support_type", statistics.by_support_type),
         ("by_actions_usage", statistics.by_actions_usage)],
      repositories := reports.map cleanReport }

/-- One file of a repository output directory: its name and the result
of loading it as JSON (`none`: unreadable or invalid). -/
structure FileEntry where
  name : String
  parsed : Option ScanReport
deriving DecidableEq

/-- One entry of the reports directory as seen by `load_repo_reports`. -/
structure RepoDir where
  name : String
  is_dir : Bool
  files : List FileEntry
deriving DecidableEq

/-- Python `s.lower()` on ASCII names. -/
def lowerStr (s : String) : String :=
  ⟨s.data.map Char.toLower⟩

/-- Python `s.startswith(pat)`. -/
def startsWithStr (s pat : String) : Bool :=
  pat.data.isPrefixOf s.data

/-- Python `s.endswith(pat)` (the `*.json` glob). -/
def endsWithStr (s pat : String) : Bool :=
  pat.data.isSuffixOf s.data

/-- The per-directory body of `load_repo_reports` (aggregate_reports.py
lines 54-86): skip non-directories and hidden names; prefer the
canonical `nim-scan-report.json` (a load error there yields nothing);
otherwise load every JSON file whose lowercased name contains
"report", skipping files that fail to load. Loaded reports get the
provenance keys set. -/
def loadDir (reports_dir : String) (d : RepoDir) : List ScanReport :=
  if d.is_dir = false then []
  else if startsWithStr d.name "." then []
  else
    let dir_path := reports_dir ++ "/" ++ d.name
    match d.files.find? (fun f => f.name == "nim-scan-report.json") with
    | some f =>
        match f.parsed with
        | some r => [{ r with source_dir := some dir_path }]
        | none => []
    | none =>
        (d.files.filter
            (fun f => endsWithStr f.name ".json" && strContains (lowerStr f.name) "report")).filterMap
          (fun f =>
            f.parsed.map
              (fun r => { r with source_dir := some dir_path, source_file := some f.name }))

/-- `load_repo_reports` (aggregate_reports.py lines 46-87). -/
def load_repo_reports (reports_dir : String) (dirs : List RepoDir) : List ScanReport :=
  dirs.flatMap (loadDir reports_dir)

/-! ### Concrete sample data used by witnesses and counterexamples -/

/-- A pending run with a resolved run id and a previously observed
in-progress poll status. -/
def pendingRun : Run :=
  { repo := "org/alpha", run_id := some 5, completed := false,
    run_status := some "in_progress", run_conclusion := none }

/-- A completed run with a resolved run id. -/
def completedRun : Run :=
  { repo := "org/alpha", run_id := some 7, completed := true,
    run_status := some "completed", run_conclusion := some "success" }

/-- A run without a resolved run id. -/
def unresolvedRun : Run :=
  { repo := "org/beta", run_id := none, completed := false,
    run_status := none, run_conclusion := none }

/-- A run with a run id that is not completed. -/
def notCompletedRun : Run :=
  { repo := "org/gamma", run_id := some 3, completed := false,
    run_status := none, run_conclusion := none }

/-- A repository output directory carrying two fallback report files
and no canonical report file. -/
def demoDir : RepoDir :=
  { name := "org-alpha", is_dir := true,
    files := [⟨"a-report.json", some { classification := some "A" }⟩,
              ⟨"b-REPORT.json", some { classification := some "B" }⟩] }

/-! ### Helper lemmas -/

theorem trigger_workflow_repo (n w b : String) (d : Bool) (t : Nat)
    (oc : DispatchOutcome) : (trigger_workflow n w b d t oc).repo = n := by
  rcases oc with ⟨_ | _⟩ | m <;> cases d <;> rfl

theorem triggerBatch_map_repo (d : Bool) (now : Nat) (o : Nat → DispatchOutcome) :
    ∀ (rs : List RepoConfig) (i : Nat),
      (triggerBatch d now o i rs).map RunRecord.repo = rs.map RepoConfig.name := by
  intro rs
  induction rs with
  | nil => intro i; rfl
  | cons rc rest ih =>
      intro i
      simp [triggerBatch, trigger_workflow_repo, ih]

theorem resolveRunIds_map_repo (lk : Nat → Option Nat) :
    ∀ (rs : List RunRecord) (i : Nat),
      (resolveRunIds lk i rs).map RunRecord.repo = rs.map RunRecord.repo := by
  intro rs
  induction rs with
  | nil => intro i; rfl
  | cons r rest ih =>
      intro i
      simp only [resolveRunIds, List.map_cons, ih]
      congr 1
      split
      · rcases lk i with _ | rid
        · rfl
        · dsimp only
          split <;> rfl
      · rfl

theorem pollRoundAux_runs_getElem (o : Nat → QueryResult) :
    ∀ (rs : List Run) (i j : Nat),
      (pollRoundAux o i rs).runs[j]? = (rs[j]?).map (fun r => roundUpdate (o (i + j)) r) := by
  intro rs
  induction rs with
  | nil => intro i j; simp [pollRoundAux]
  | cons r rest ih =>
      intro i j
      have hhead : (pollRoundAux o i (r :: rest)).runs =
          roundUpdate (o i) r :: (pollRoundAux o (i + 1) rest).runs := by
        by_cases h1 : hasRunId r
        · by_cases h2 : r.completed <;> simp [pollRoundAux, roundUpdate, h1, h2]
        · simp [pollRoundAux, roundUpdate, h1]
      cases j with
      | zero => simp [hhead]
      | succ j =>
          have harith : i + 1 + j = i + (j + 1) := by omega
          simp [hhead, ih rest.length, harith]
          rw [ih (i + 1) j, harith]

/-! ### Claim C1 -/

/-- C1: for every targeted repository list (nonempty, since the script
exits without writing output on an empty list), the trigger output has
one RunRecord per repository, in input order, regardless of how many
dispatches return false or raise a remote error; no dispatch failure
stops the batch loop. -/
theorem trigger_runs_one_per_repo (dry_run : Bool) (now : Nat)
    (oracle : Nat → DispatchOutcome) (lookupRun : Nat → Option Nat)
    (repos : List RepoConfig) (h : repos ≠ []) :
    (triggerMain dry_run now oracle lookupRun repos).map
        (fun out => out.runs.map RunRecord.repo) = some (repos.map RepoConfig.name) ∧
    (triggerMain dry_run now oracle lookupRun repos).map
        (fun out => out.runs.length) = some repos.length ∧
    (triggerMain dry_run now oracle lookupRun repos).map
        TriggerOutput.total_repos = some repos.length := by
  have hne : repos.isEmpty = false := by
    simpa [List.isEmpty_iff] using h
  have hruns :
      (if dry_run then triggerBatch dry_run now oracle 0 repos
        else resolveRunIds lookupRun 0 (triggerBatch dry_run now oracle 0 repos)).map
        RunRecord.repo = repos.map RepoConfig.name := by
    cases dry_run <;>
      simp [resolveRunIds_map_repo, triggerBatch_map_repo]
  refine ⟨?_, ?_, ?_⟩
  · simp only [triggerMain, hne, Bool.false_eq_true, if_false, Option.map_some]
    cases dry_run <;> simpa using hruns
  · have hlen :
        (if dry_run then triggerBatch dry_run now oracle 0 repos
          else resolveRunIds lookupRun 0 (triggerBatch dry_run now oracle 0 repos)).length
          = repos.length := by
      have := congrArg List.length hruns
      simpa using this
    simp only [triggerMain, hne, Bool.false_eq_true, if_false, Option.map_some]
    cases dry_run <;> simpa using hlen
  · simp [triggerMain, hne]

/-- Witness for C1: three repositories, the first dispatch raising a
remote error and the second returning false, still yield three run
records in input order. -/
theorem trigger_runs_one_per_repo_witness :
    (triggerMain false 0
        (fun i => if i = 0 then .raised "API error" else if i = 1 then .ok false else .ok true)
        (fun _ => some 11)
        [⟨"org/alpha", "ci.yml", "main"⟩, ⟨"org/beta", "ci.yml", "main"⟩,
         ⟨"org/gamma", "ci.yml", "main"⟩]).map
        (fun out => out.runs.map RunRecord.repo) =
      some ["org/alpha", "org/beta", "org/gamma"] ∧
    (triggerMain false 0
        (fun i => if i = 0 then .raised "API error" else if i = 1 then .ok false else .ok true)
        (fun _ => some 11)
        [⟨"org/alpha", "ci.yml", "main"⟩, ⟨"org/beta", "ci.yml", "main"⟩,
         ⟨"org/gamma", "ci.yml", "main"⟩]).map
        TriggerOutput.total_repos = some 3 := by
  have h := trigger_runs_one_per_repo false 0
    (fun i => if i = 0 then .raised "API error" else if i = 1 then .ok false else .ok true)
    (fun _ => some 11)
    [⟨"org/alpha", "ci.yml", "main"⟩, ⟨"org/beta", "ci.yml", "main"⟩,
     ⟨"org/gamma", "ci.yml", "main"⟩] (by decide)
  exact ⟨h.1, h.2.2⟩

/-! ### Claim C2 -/

/-- Counterexample to C2 as stated: a transiently failing status query
does not leave the stored status and conclusion unchanged — it
overwrites the previously observed `in_progress` status with `error`. -/
theorem poll_failed_query_cex :
    (pollRound (fun _ => QueryResult.raised "boom") [pendingRun]).runs ≠ [pendingRun] ∧
    ((pollRound (fun _ => QueryResult.raised "boom") [pendingRun]).runs[0]?.map
        Run.run_status) = some (some "error") ∧
    pendingRun.run_status = some "in_progress" := by
  refine ⟨by decide, by decide, by decide⟩

/-- C2 (amended): a transiently failing status query overwrites the
stored status with "error" and clears the conclusion for that round,
but never sets the completed flag, so the record stays pending (with
its run id) and is queried again the next round; in particular the
failed query never marks the record completed. -/
theorem poll_failed_query_keeps_pending (o : Nat → QueryResult) (runs : List Run)
    (j : Nat) (r : Run) (m : String) (hr : runs[j]? = some r)
    (hid : hasRunId r = true) (hc : r.completed = false)
    (ho : o j = QueryResult.raised m) :
    (pollRound o runs).runs[j]? =
      some { r with run_status := some "error", run_conclusion := none } ∧
    ({ r with run_status := some "error", run_conclusion := none } : Run).completed
      = false ∧
    hasRunId { r with run_status := some "error", run_conclusion := none } = true := by
  refine ⟨?_, hc, ?_⟩
  · have hget := pollRoundAux_runs_getElem o runs 0 j
    rw [pollRound, hget, hr]
    simp [roundUpdate, hid, hc, stepRun, check_run_status, ho]
  · simpa [hasRunId] using hid

/-- Witness for C2 (amended): the concrete pending record with a raised
query keeps its completed flag false and its run id. -/
theorem poll_failed_query_keeps_pending_witness :
    (pollRound (fun _ => QueryResult.raised "rate limited") [pendingRun]).runs[0]? =
      some { pendingRun with run_status := some "error", run_conclusion := none } ∧
    ({ pendingRun with run_status := some "error", run_conclusion := none } : Run).completed
      = false ∧
    hasRunId { pendingRun with run_status := some "error", run_conclusion := none }
      = true :=
  poll_failed_query_keeps_pending (fun _ => QueryResult.raised "rate limited")
    [pendingRun] 0 pendingRun "rate limited" (by decide) (by decide) (by decide) rfl

/-! ### Claim C3 -/

/-- C3: with a zero timeout the poll loop breaks at its first deadline
check (any positive wall-clock lapse since the start exceeds the zero
deadline), so it performs at most one status check per resolvable
record (in fact none), never sleeps, never errors, and returns every
record in its previous best-known state — never falsely completed. -/
theorem poll_zero_timeout (oracle : Nat → Nat → QueryResult) (elapsed : Nat → ℚ)
    (fuel : Nat) (runs : List Run) (hf : 1 ≤ fuel) (ht : 0 < elapsed 0) :
    wait_for_completion oracle elapsed 0 fuel runs =
      { runs := runs, checks := 0, sleeps := 0 } ∧
    (wait_for_completion oracle elapsed 0 fuel runs).checks ≤
      (runs.filter hasRunId).length := by
  have hmain : wait_for_completion oracle elapsed 0 fuel runs =
      { runs := runs, checks := 0, sleeps := 0 } := by
    rw [wait_for_completion]
    split
    · rfl
    · obtain ⟨f, rfl⟩ : ∃ f, fuel = f + 1 := ⟨fuel - 1, by omega⟩
      rw [wait_loop]
      rw [if_pos (by simpa using ht)]
  exact ⟨hmain, by simp [hmain]⟩

/-- Witness for C3: a concrete pending record, a clock that has
advanced, and fuel one: the zero-timeout call returns the records
unchanged with no sleep and no checks. -/
theorem poll_zero_timeout_witness :
    wait_for_completion (fun _ _ => QueryResult.raised "x") (fun _ => 1) 0 1
        [pendingRun, unresolvedRun] =
      { runs := [pendingRun, unresolvedRun], checks := 0, sleeps := 0 } ∧
    (wait_for_completion (fun _ _ => QueryResult.raised "x") (fun _ => 1) 0 1
        [pendingRun, unresolvedRun]).checks ≤
      ([pendingRun, unresolvedRun].filter hasRunId).length :=
  poll_zero_timeout (fun _ _ => QueryResult.raised "x") (fun _ => 1) 1
    [pendingRun, unresolvedRun] (by decide) (by decide)

/-! ### Claim C4 -/

/-- Counterexample to C4 as stated: with a single fallback-matching
artifact whose download fails, no artifact of the winning (fallback)
tier was downloaded successfully, yet the collection status is still
`partial`: the fallback loop sets `found_report` on the name match
alone, ignoring the download result. -/
theorem collect_partial_without_download_cex :
    (collect_report completedRun (.ok [⟨"hosted-nim-report", 9⟩]) (fun _ => false)
        "reports").1.status = "partial" ∧
    (fun (_ : Nat) => false) 9 = false := by
  refine ⟨by decide, rfl⟩

/-- C4 (amended): a failure downloading one matched artifact never
aborts the remaining downloads — every canonical match is attempted,
and when no canonical download succeeded every fallback match is also
attempted (the call count equals one listing plus one download per
matched artifact of the consulted tiers). Status `collected` holds iff
at least one canonical-tier artifact downloaded successfully; status
`partial` holds iff no canonical download succeeded and at least one
artifact name matches a fallback token, regardless of the fallback
download results. -/
theorem collect_download_failure_isolated (run : Run) (arts : List Artifact)
    (dl : Nat → Bool) (out : String) (h1 : hasRunId run = true)
    (h2 : run.completed = true) :
    ((collect_report run (.ok arts) dl out).1.status = "collected" ↔
      ∃ a ∈ arts, matchesCanonical a = true ∧ dl a.id = true) ∧
    ((collect_report run (.ok arts) dl out).1.status = "partial" ↔
      ((∀ a ∈ arts, matchesCanonical a = true → dl a.id = false) ∧
        ∃ a ∈ arts, matchesFallback a = true)) ∧
    (collect_report run (.ok arts) dl out).2 =
      1 + (arts.filter matchesCanonical).length +
        (if (arts.filter matchesCanonical).any (fun a => dl a.id) then 0
          else (arts.filter matchesFallback).length) := by
  by_cases hfa : (arts.filter matchesCanonical).any (fun a => dl a.id)
  · obtain ⟨a, hmem, hcan, hdl⟩ :
        ∃ a, a ∈ arts ∧ matchesCanonical a = true ∧ dl a.id = true := by
      obtain ⟨a, ha, hd⟩ := List.any_eq_true.mp hfa
      exact ⟨a, (List.mem_filter.mp ha).1, (List.mem_filter.mp ha).2, hd⟩
    have hres : collect_report run (.ok arts) dl out =
        ({ repo := run.repo, status := "collected",
            output_dir := some (out ++ "/" ++ dirName run.repo) },
          1 + (arts.filter matchesCanonical).length) := by
      simp [collect_report, h1, h2, hfa]
    rw [hres]
    refine ⟨iff_of_true rfl ⟨a, hmem, hcan, hdl⟩, ?_, by simp [hfa]⟩
    refine iff_of_false (by simp) ?_
    rintro ⟨hall, -⟩
    have := hall a hmem hcan
    simp [this] at hdl
  · rw [Bool.not_eq_true] at hfa
    have hall : ∀ a ∈ arts, matchesCanonical a = true → dl a.id = false := by
      intro a ha hc
      have := List.any_eq_false.mp hfa a (List.mem_filter.mpr ⟨ha, hc⟩)
      simpa using this
    by_cases he : (arts.filter matchesFallback).isEmpty
    · have hnofb : ∀ a ∈ arts, matchesFallback a = false := by
        intro a ha
        have hfil := List.isEmpty_iff.mp he
        have := List.filter_eq_nil_iff.mp hfil a ha
        simpa using this
      have hres : collect_report run (.ok arts) dl out =
          ({ repo := run.repo, status := "no_artifacts" },
            1 + (arts.filter matchesCanonical).length +
              (arts.filter matchesFallback).length) := by
        simp [collect_report, h1, h2, hfa, he]
      rw [hres]
      refine ⟨?_, ?_, by simp [hfa]⟩
      · refine iff_of_false (by simp) ?_
        rintro ⟨a, ha, hc, hd⟩
        have := hall a ha hc
        simp [this] at hd
      · refine iff_of_false (by simp) ?_
        rintro ⟨-, a, ha, hf⟩
        have := hnofb a ha
        simp [this] at hf
    · have hne : arts.filter matchesFallback ≠ [] := by
        intro hnil
        rw [hnil] at he
        exact he rfl
      obtain ⟨b, hb⟩ := List.exists_mem_of_ne_nil _ hne
      have hbmem := (List.mem_filter.mp hb).1
      have hbfb := (List.mem_filter.mp hb).2
      have hres : collect_report run (.ok arts) dl out =
          ({ repo := run.repo, status := "partial",
              output_dir := some (out ++ "/" ++ dirName run.repo) },
            1 + (arts.filter matchesCanonical).length +
              (arts.filter matchesFallback).length) := by
        simp [collect_report, h1, h2, hfa, he]
      rw [hres]
      refine ⟨?_, iff_of_true rfl ⟨hall, b, hbmem, hbfb⟩, by simp [hfa]⟩
      refine iff_of_false (by simp) ?_
      rintro ⟨a, ha, hc, hd⟩
      have := hall a ha hc
      simp [this] at hd

/-- Witness for C4 (amended): two canonical artifacts, the first
download failing and the second succeeding, yield status `collected`
with both downloads attempted (three remote calls). -/
theorem collect_download_failure_isolated_witness :
    (collect_report completedRun
        (.ok [⟨"nim-scan-report-a", 1⟩, ⟨"nim-scan-report-b", 2⟩])
        (fun i => i == 2) "reports").1.status = "collected" ∧
    (collect_report completedRun
        (.ok [⟨"nim-scan-report-a", 1⟩, ⟨"nim-scan-report-b", 2⟩])
        (fun i => i == 2) "reports").2 = 3 := by
  have h := collect_download_failure_isolated completedRun
    [⟨"nim-scan-report-a", 1⟩, ⟨"nim-scan-report-b", 2⟩]
    (fun i => i == 2) "reports" (by decide) (by decide)
  refine ⟨h.1.mpr ?_, ?_⟩
  · exact ⟨⟨"nim-scan-report-b", 2⟩, by decide, by decide, by decide⟩
  · rw [h.2.2]
    decide

/-! ### Claim C5 -/

/-- Counterexample to C5 as stated: an artifact list with a canonical
match (whose download fails) and a fallback match yields status
`partial`, not `collected`, and the fallback tier is consulted even
though the canonical tier produced a match. -/
theorem collect_two_tier_cex :
    (collect_report completedRun
        (.ok [⟨"nim-scan-report", 1⟩, ⟨"docker-image-report", 2⟩]) (fun _ => false)
        "reports").1.status = "partial" ∧
    matchesCanonical ⟨"nim-scan-report", 1⟩ = true := by
  refine ⟨by decide, by decide⟩

/-- C5 (amended): the two-tier matching behaves as claimed whenever
every download succeeds: a canonical name match yields `collected`, a
fallback-only match yields `partial`, no match in either tier yields
`no_artifacts`, and the fallback tier is consulted only when the
canonical tier produced zero (successful) matches. -/
theorem collect_two_tier_statuses (run : Run) (arts : List Artifact)
    (dl : Nat → Bool) (out : String) (h1 : hasRunId run = true)
    (h2 : run.completed = true) (hdl : ∀ i, dl i = true) :
    ((collect_report run (.ok arts) dl out).1.status = "collected" ↔
      ∃ a ∈ arts, matchesCanonical a = true) ∧
    ((collect_report run (.ok arts) dl out).1.status = "partial" ↔
      ((∀ a ∈ arts, matchesCanonical a = false) ∧
        ∃ a ∈ arts, matchesFallback a = true)) ∧
    ((collect_report run (.ok arts) dl out).1.status = "no_artifacts" ↔
      ((∀ a ∈ arts, matchesCanonical a = false) ∧
        ∀ a ∈ arts, matchesFallback a = false)) := by
  have h := collect_download_failure_isolated run arts dl out h1 h2
  by_cases hcan : ∃ a ∈ arts, matchesCanonical a = true
  · obtain ⟨a, ha, hc⟩ := hcan
    have hcol : (collect_report run (.ok arts) dl out).1.status = "collected" :=
      h.1.mpr ⟨a, ha, hc, hdl a.id⟩
    refine ⟨iff_of_true hcol ⟨a, ha, hc⟩, ?_, ?_⟩
    · refine iff_of_false (by simp [hcol]) ?_
      rintro ⟨hnone, -⟩
      simp [hnone a ha] at hc
    · refine iff_of_false (by simp [hcol]) ?_
      rintro ⟨hnone, -⟩
      simp [hnone a ha] at hc
  · have hnone : ∀ a ∈ arts, matchesCanonical a = false := by
      intro a ha
      rcases hb : matchesCanonical a with _ | _
      · rfl
      · exact absurd ⟨a, ha, hb⟩ hcan
    have hnocol : ¬ (collect_report run (.ok arts) dl out).1.status = "collected" := by
      intro hcol
      obtain ⟨a, ha, hc, -⟩ := h.1.mp hcol
      simp [hnone a ha] at hc
    have hallfail : ∀ a ∈ arts, matchesCanonical a = true → dl a.id = false := by
      intro a ha hc
      simp [hnone a ha] at hc
    by_cases hfb : ∃ a ∈ arts, matchesFallback a = true
    · have hpart : (collect_report run (.ok arts) dl out).1.status = "partial" :=
        h.2.1.mpr ⟨hallfail, hfb⟩
      refine ⟨iff_of_false (by simp [hpart]) hcan, iff_of_true hpart ⟨hnone, hfb⟩, ?_⟩
      refine iff_of_false (by simp [hpart]) ?_
      rintro ⟨-, hnofb⟩
      obtain ⟨a, ha, hfba⟩ := hfb
      simp [hnofb a ha] at hfba
    · have hnofb : ∀ a ∈ arts, matchesFallback a = false := by
        intro a ha
        rcases hb : matchesFallback a with _ | _
        · rfl
        · exact absurd ⟨a, ha, hb⟩ hfb
      have hfilc : arts.filter matchesCanonical = [] :=
        List.filter_eq_nil_iff.mpr (fun a ha => by simp [hnone a ha])
      have hfilf : arts.filter matchesFallback = [] :=
        List.filter_eq_nil_iff.mpr (fun a ha => by simp [hnofb a ha])
      have hno : (collect_report run (.ok arts) dl out).1.status = "no_artifacts" := by
        simp [collect_report, h1, h2, hfilc, hfilf]
      refine ⟨iff_of_false (by simp [hno]) hcan, ?_, iff_of_true hno ⟨hnone, hnofb⟩⟩
      refine iff_of_false (by simp [hno]) ?_
      rintro ⟨-, hfb'⟩
      exact hfb hfb'

/-- Witness for C5 (amended): the three fixture artifact lists of the
specification, with all downloads succeeding, map to `collected`,
`partial` and `no_artifacts` respectively. -/
theorem collect_two_tier_statuses_witness :
    (collect_report completedRun (.ok [⟨"nim-scan-report", 1⟩]) (fun _ => true)
        "reports").1.status = "collected" ∧
    (collect_report completedRun (.ok [⟨"docker-image-report", 2⟩]) (fun _ => true)
        "reports").1.status = "partial" ∧
    (collect_report completedRun (.ok [⟨"build-logs", 3⟩]) (fun _ => true)
        "reports").1.status = "no_artifacts" := by
  have hA := collect_two_tier_statuses completedRun [⟨"nim-scan-report", 1⟩]
    (fun _ => true) "reports" (by decide) (by decide) (fun _ => rfl)
  have hB := collect_two_tier_statuses completedRun [⟨"docker-image-report", 2⟩]
    (fun _ => true) "reports" (by decide) (by decide) (fun _ => rfl)
  have hC := collect_two_tier_statuses completedRun [⟨"build-logs", 3⟩]
    (fun _ => true) "reports" (by decide) (by decide) (fun _ => rfl)
  exact ⟨hA.1.mpr (by decide), hB.2.1.mpr (by decide), hC.2.2.mpr (by decide)⟩

/-! ### Claim C6 -/

/-- C6: a record with a falsy run id yields the terminal skip result
`skipped_no_run_id`, and a record with a run id that is not completed
yields `skipped_not_completed`, in both cases with zero remote calls
and as an ordinary return value, never an error. -/
theorem collect_skips_are_terminal (run : Run) (listing : ArtifactsListing)
    (dl : Nat → Bool) (out : String) :
    (hasRunId run = false →
      collect_report run listing dl out =
        ({ repo := run.repo, status := "skipped", reason := some "no_run_id" }, 0) ∧
      resultLabel (collect_report run listing dl out).1 = "skipped_no_run_id") ∧
    (hasRunId run = true → run.completed = false →
      collect_report run listing dl out =
        ({ repo := run.repo, status := "skipped", reason := some "not_completed" }, 0) ∧
      resultLabel (collect_report run listing dl out).1 = "skipped_not_completed") := by
  constructor
  · intro h
    have hres : collect_report run listing dl out =
        ({ repo := run.repo, status := "skipped", reason := some "no_run_id" }, 0) := by
      simp [collect_report, h]
    exact ⟨hres, by rw [hres]; rfl⟩
  · intro h1 h2
    have hres : collect_report run listing dl out =
        ({ repo := run.repo, status := "skipped", reason := some "not_completed" }, 0) := by
      simp [collect_report, h1, h2]
    exact ⟨hres, by rw [hres]; rfl⟩

/-- Witness for C6: a record without a run id and a record with an
uncompleted run both produce their skip results with zero remote
calls. -/
theorem collect_skips_are_terminal_witness :
    (collect_report unresolvedRun (.ok []) (fun _ => true) "reports" =
      ({ repo := unresolvedRun.repo, status := "skipped", reason := some "no_run_id" }, 0) ∧
      resultLabel (collect_report unresolvedRun (.ok []) (fun _ => true) "reports").1 =
        "skipped_no_run_id") ∧
    (collect_report notCompletedRun (.ok []) (fun _ => true) "reports" =
      ({ repo := notCompletedRun.repo, status := "skipped",
          reason := some "not_completed" }, 0) ∧
      resultLabel (collect_report notCompletedRun (.ok []) (fun _ => true) "reports").1 =
        "skipped_not_completed") :=
  ⟨(collect_skips_are_terminal unresolvedRun (.ok []) (fun _ => true) "reports").1
      (by decide),
   (collect_skips_are_terminal notCompletedRun (.ok []) (fun _ => true) "reports").2
      (by decide) (by decide)⟩

/-! ### Claim C7 -/

/-- Counterexample to C7 as stated: the empty-input aggregate carries no
`successful_scans` entry at all (in particular not an explicit 0) and
its summary object is empty, containing none of the three tally
tables. -/
theorem aggregate_empty_cex :
    (aggregateMain []).metadata.successful_scans ≠ some 0 ∧
    (aggregateMain []).summary = [] := by
  exact ⟨by decide, rfl⟩

/-- C7 (amended): aggregating an empty report sequence succeeds (it is a
total function, never an error) and yields `total_repos = 0`, an empty
`repositories` sequence, an empty summary object with no tally tables,
and a metadata object without a `successful_scans` entry. -/
theorem aggregate_empty_shape :
    aggregateMain [] =
      { metadata := { total_repos := 0, successful_scans := none },
        summary := [], repositories := [] } := rfl

/-! ### Claim C8 -/

theorem lookupCount_bump (t : List (String × Nat)) (k k' : String) :
    lookupCount (bump t k) k' = lookupCount t k' + (if k = k' then 1 else 0) := by
  induction t with
  | nil =>
      by_cases h : k = k' <;> simp [bump, lookupCount, h]
  | cons p rest ih =>
      obtain ⟨a, v⟩ := p
      by_cases hak : a = k
      · subst hak
        by_cases hak' : a = k'
        · subst hak'
          simp [bump, lookupCount]
        · simp [bump, lookupCount, hak']
      · by_cases hak' : a = k'
        · subst hak'
          have hka : k ≠ a := fun h => hak h.symm
          simp [bump, lookupCount, hak, hka]
        · simp [bump, lookupCount, hak, hak', ih]

theorem supportBucket_cases (r : ScanReport) :
    supportBucket r = "both" ∨ supportBucket r = "local_only" ∨
      supportBucket r = "hosted_only" ∨ supportBucket r = "none" := by
  rcases h1 : supportsLocal r <;> rcases h2 : supportsHosted r <;>
    simp [supportBucket, h1, h2]

theorem usageBucket_cases (r : ScanReport) :
    usageBucket r = "both_in_actions" ∨ usageBucket r = "local_in_actions" ∨
      usageBucket r = "hosted_in_actions" ∨ usageBucket r = "none_in_actions" := by
  rcases h1 : usesLocal r <;> rcases h2 : usesHosted r <;>
    simp [usageBucket, h1, h2]

theorem sumSupport_bump (t : List (String × Nat)) (k : String)
    (hk : k = "both" ∨ k = "local_only" ∨ k = "hosted_only" ∨ k = "none") :
    sumSupport (bump t k) = sumSupport t + 1 := by
  rcases hk with rfl | rfl | rfl | rfl <;>
    simp [sumSupport, lookupCount_bump] <;> ring

theorem sumUsage_bump (t : List (String × Nat)) (k : String)
    (hk : k = "both_in_actions" ∨ k = "local_in_actions" ∨
      k = "hosted_in_actions" ∨ k = "none_in_actions") :
    sumUsage (bump t k) = sumUsage t + 1 := by
  rcases hk with rfl | rfl | rfl | rfl <;>
    simp [sumUsage, lookupCount_bump] <;> ring

theorem sumSupport_fold (reports : List ScanReport) :
    ∀ s : Statistics,
      sumSupport ((reports.foldl aggStep s).by_support_type) =
        sumSupport s.by_support_type + reports.length := by
  induction reports with
  | nil => intro s; simp
  | cons r rest ih =>
      intro s
      rw [List.foldl_cons, ih (aggStep s r)]
      have hb : (aggStep s r).by_support_type =
          bump s.by_support_type (supportBucket r) := rfl
      rw [hb, sumSupport_bump s.by_support_type (supportBucket r) (supportBucket_cases r)]
      simp
      omega

theorem sumUsage_fold (reports : List ScanReport) :
    ∀ s : Statistics,
      sumUsage ((reports.foldl aggStep s).by_actions_usage) =
        sumUsage s.by_actions_usage + reports.length := by
  induction reports with
  | nil => intro s; simp
  | cons r rest ih =>
      intro s
      rw [List.foldl_cons, ih (aggStep s r)]
      have hb : (aggStep s r).by_actions_usage =
          bump s.by_actions_usage (usageBucket r) := rfl
      rw [hb, sumUsage_bump s.by_actions_usage (usageBucket r) (usageBucket_cases r)]
      simp
      omega

/-- C8: each report falls in exactly one of the four support-type
buckets and one of the four actions-usage buckets (missing booleans
defaulting to false), so in each of the two tally tables the four
bucket counts sum to the number of reports aggregated. -/
theorem tally_buckets_sum_to_total (reports : List ScanReport) :
    (lookupCount (aggregate_statistics reports).by_support_type "both" +
      lookupCount (aggregate_statistics reports).by_support_type "local_only" +
      lookupCount (aggregate_statistics reports).by_support_type "hosted_only" +
      lookupCount (aggregate_statistics reports).by_support_type "none" =
        reports.length) ∧
    (lookupCount (aggregate_statistics reports).by_actions_usage "both_in_actions" +
      lookupCount (aggregate_statistics reports).by_actions_usage "local_in_actions" +
      lookupCount (aggregate_statistics reports).by_actions_usage "hosted_in_actions" +
      lookupCount (aggregate_statistics reports).by_actions_usage "none_in_actions" =
        reports.length) := by
  constructor
  · have := sumSupport_fold reports
      { by_classification := [], by_support_type := [], by_actions_usage := [] }
    simpa [aggregate_statistics, sumSupport, lookupCount] using this
  · have := sumUsage_fold reports
      { by_classification := [], by_support_type := [], by_actions_usage := [] }
    simpa [aggregate_statistics, sumUsage, lookupCount] using this

/-! ### Claim C9 -/

/-- Counterexample to C9: the directory-name transform maps the two
distinct repository identifiers `a/b-c` and `a-b/c` to the same
directory name, so it is neither injective nor reversible in
general. -/
theorem dirName_collision_cex :
    dirName "a/b-c" = dirName "a-b/c" ∧ ("a/b-c" : String) ≠ "a-b/c" := by
  exact ⟨by decide, by decide⟩

theorem dirName_undo_data (l : List Char) (h : '-' ∉ l) :
    (l.map (fun c => if c = '/' then '-' else c)).map
      (fun c => if c = '-' then '/' else c) = l := by
  induction l with
  | nil => rfl
  | cons c rest ih =>
      have hc : c ≠ '-' := fun hc => h (hc ▸ List.mem_cons_self c rest)
      have hrest := ih (fun hm => h (List.mem_cons_of_mem _ hm))
      by_cases hcs : c = '/'
      · simp [hcs, hrest]
      · simp [hcs, hc, hrest]

/-- C9 (amended): the transform replaces each `/` of the repository
identifier with `-`; on identifiers containing no hyphen it is
injective and the identifier is recovered by the reverse replacement,
but (per the counterexample) not on identifiers in general. -/
theorem dirName_reversible_on_hyphen_free (s t : String)
    (hs : '-' ∉ s.data) (ht : '-' ∉ t.data) :
    (dirName s = dirName t → s = t) ∧ undoDirName (dirName s) = s := by
  have hundo : ∀ u : String, '-' ∉ u.data → undoDirName (dirName u) = u := by
    intro u hu
    cases u with
    | mk data => exact congrArg String.mk (dirName_undo_data data hu)
  refine ⟨?_, hundo s hs⟩
  intro h
  have h2 := congrArg undoDirName h
  rwa [hundo s hs, hundo t ht] at h2

/-- Witness for C9 (amended): two hyphen-free identifiers. -/
theorem dirName_reversible_on_hyphen_free_witness :
    (dirName "org/alpha" = dirName "org/beta" → ("org/alpha" : String) = "org/beta") ∧
    undoDirName (dirName "org/alpha") = "org/alpha" :=
  dirName_reversible_on_hyphen_free "org/alpha" "org/beta" (by decide) (by decide)

/-! ### Claim C10 -/

/-- C10: for every nonempty loaded report sequence the emitted
aggregate records `successful_scans` equal to `total_repos`, both being
the number of report files loaded by discovery (which can exceed the
number of repositories when one directory contributes several fallback
report files); scan success is never measured independently. -/
theorem aggregate_successful_equals_loaded (base : String) (dirs : List RepoDir)
    (h : load_repo_reports base dirs ≠ []) :
    (aggregateMain (load_repo_reports base dirs)).metadata.successful_scans =
      some (load_repo_reports base dirs).length ∧
    (aggregateMain (load_repo_reports base dirs)).metadata.total_repos =
      (load_repo_reports base dirs).length := by
  have hne : (load_repo_reports base dirs).isEmpty = false := by
    simpa [List.isEmpty_iff] using h
  constructor <;> simp [aggregateMain, hne]

/-- Witness for C10: a single repository directory carrying two
fallback report files loads two reports, and the aggregate records
`successful_scans = total_repos = 2` although only one repository is
present. -/
theorem aggregate_successful_equals_loaded_witness :
    (aggregateMain (load_repo_reports "reports" [demoDir])).metadata.successful_scans =
      some 2 ∧
    (aggregateMain (load_repo_reports "reports" [demoDir])).metadata.total_repos = 2 ∧
    [demoDir].length = 1 := by
  have h := aggregate_successful_equals_loaded "reports" [demoDir] (by decide)
  have hlen : (load_repo_reports "reports" [demoDir]).length = 2 := by decide
  exact ⟨hlen ▸ h.1, hlen ▸ h.2, rfl⟩

end BlueprintScan
